import Mathlib

/-!
Verification of the SecureBank ledger/transaction engine specification
against the Django source (`accounts/models.py`, `transactions/models.py`,
`crypto/models.py`, `payments/models.py`, `giftcards/models.py`,
`services/models.py`).

Monetary `DecimalField(max_digits=15, decimal_places=2)` values are embedded
as integers counting cents, so `Decimal("100000.00")` becomes `10000000`.
Status, type and tier enumerations are stored by Django as strings and are
embedded as `String`.  Datetimes are embedded by their millisecond epoch
value (`Option Int`: `none` models a Python `None`, as for `created_at`
before the first INSERT with `auto_now_add`).  ORM query sets are embedded
as Lean lists of rows; the random draws consumed by `random.choices` /
`random.randint` are passed in explicitly as a list (the stream of draws),
so the unbounded retry loops of the source become structural recursion over
that stream.
-/

namespace SecureBank

/-- Python runtime errors that the embedded code can raise, and the
exhaustion of the explicit random-draw stream (the source loops forever;
the embedding cuts the loop at the end of the supplied stream). -/
inductive PyErr where
  | typeError
  | drawsExhausted
deriving Repr, DecidableEq

/-! ## accounts/models.py — `BankAccount` -/

/-- Embeds `BankAccount` (accounts/models.py, lines 125-193): the fields the
engine claims concern.  `balance`, `available_balance`, `frozen_balance` are
`DecimalField`s with default `0.00`; `status` defaults to `"ACTIVE"`;
`daily_limit` defaults to `500000.00` and `single_transaction_limit` to
`100000.00`. -/
structure BankAccount where
  account_number : String
  balance : Int
  available_balance : Int
  frozen_balance : Int
  status : String
  daily_limit : Int
  single_transaction_limit : Int
deriving Repr, DecidableEq

/-- A `BankAccount` as first constructed with the model's field defaults
(account number still blank, to be filled by `save`). -/
def defaultBankAccount : BankAccount :=
  { account_number := ""
    balance := 0
    available_balance := 0
    frozen_balance := 0
    status := "ACTIVE"
    daily_limit := 50000000
    single_transaction_limit := 10000000 }

/-- Embeds the `is_active` property: `self.status == 'ACTIVE'`. -/
def BankAccount.is_active (a : BankAccount) : Bool :=
  a.status = "ACTIVE"

/-- Embeds `BankAccount.can_withdraw` (accounts/models.py, lines 187-193):
`self.is_active and amount <= self.available_balance and
amount <= self.single_transaction_limit`. -/
def BankAccount.can_withdraw (a : BankAccount) (amount : Int) : Bool :=
  a.is_active && decide (amount ≤ a.available_balance)
    && decide (amount ≤ a.single_transaction_limit)

/-- Embeds `BankAccount.generate_account_number` (accounts/models.py,
lines 175-181): draws `random.randint(1000000000, 9999999999)` and prepends
`"209"`, retrying while the number already exists.  The draws are the
`randoms` stream; `existing` is the set of persisted account numbers. -/
def generate_account_number (existing : List String) :
    List Nat → Option String
  | [] => none
  | n :: rest =>
    let number := "209" ++ toString n
    if number ∈ existing then generate_account_number existing rest
    else some number

/-- Embeds `BankAccount.save` (accounts/models.py, lines 170-173): fills
`account_number` when blank, then persists the record unchanged otherwise.
Returns `none` only when the draw stream runs out (the source would keep
looping). -/
def BankAccount.save (randoms : List Nat) (existing : List String)
    (a : BankAccount) : Option BankAccount :=
  if a.account_number = "" then
    match generate_account_number existing randoms with
    | none => none
    | some n => some { a with account_number := n }
  else
    some a

/-- Embeds the `BankAccountAdmin` change form (accounts/admin.py): its
`Balances` fieldset exposes `balance`, `available_balance` and
`frozen_balance` as ordinary editable form fields (only `id`, `created_at`,
`updated_at` are in `readonly_fields`), so saving the form writes the
submitted values directly into the three balance columns. -/
def BankAccountAdmin.updateBalances (a : BankAccount)
    (balance available frozen : Int) : BankAccount :=
  { a with balance := balance, available_balance := available,
           frozen_balance := frozen }

/-- The ledger invariant claimed by the specification for every account:
`balance == available_balance + frozen_balance` and
`available_balance >= 0`. -/
def balanceInvariant (a : BankAccount) : Prop :=
  a.balance = a.available_balance + a.frozen_balance ∧ 0 ≤ a.available_balance

instance (a : BankAccount) : Decidable (balanceInvariant a) := by
  unfold balanceInvariant; infer_instance

/-! ## Reference generation (shared shape of the eight `generate_reference`
methods in transactions/, crypto/, payments/, giftcards/, services/) -/

/-- The character population of `string.ascii_uppercase + string.digits`,
from which `random.choices(..., k=8)` draws the reference suffix. -/
def isUpperOrDigit (c : Char) : Bool :=
  c.isUpper || c.isDigit

/-- A string that `random.choices(string.ascii_uppercase + string.digits,
k=8)` can produce: exactly 8 characters, each an uppercase ASCII letter or
a digit. -/
def validDraw (s : String) : Bool :=
  s.length = 8 && s.toList.all isUpperOrDigit

/-- The body of the `while True` retry loop shared by every
`generate_reference`: build `prefix + timestamp + random_str` from the next
random draw and return it unless it already exists, in which case loop with
the remaining draws. -/
def genRefLoop (pre ts : String) (existing : List String) :
    List String → Option String
  | [] => none
  | r :: rest =>
    let reference := pre ++ ts ++ r
    if reference ∈ existing then genRefLoop pre ts existing rest
    else some reference

/-- Embeds the shared `generate_reference` method (e.g.
transactions/models.py, lines 163-181).  The timestamp component is
`str(int(self.created_at.timestamp() * 1000))` when `created_at` is set.
When `created_at` is `None` the source evaluates
`str(int(uuid.uuid4().int)[:10])`, which subscripts the `int` returned by
`int(...)` and therefore raises `TypeError` on the loop's first iteration,
before any draw is consumed. -/
def genRef (pre : String) (created_at : Option Int)
    (randoms existing : List String) : Except PyErr String :=
  match created_at with
  | none => .error .typeError
  | some ms =>
    match genRefLoop pre (toString ms) existing randoms with
    | some reference => .ok reference
    | none => .error .drawsExhausted

/-- `Transaction.generate_reference` (transactions/models.py, lines
163-181): prefix `"TXN"`, uniqueness checked against
`Transaction.objects`. -/
def Transaction.generate_reference (created_at : Option Int)
    (randoms existing : List String) : Except PyErr String :=
  genRef "TXN" created_at randoms existing

/-- `CryptoTransaction.generate_reference` (crypto/models.py, lines
284-302): prefix `"CRX"`. -/
def CryptoTransaction.generate_reference (created_at : Option Int)
    (randoms existing : List String) : Except PyErr String :=
  genRef "CRX" created_at randoms existing

/-- `PaymentTransaction.generate_reference` (payments/models.py, lines
216-234): prefix `"PAY"`. -/
def PaymentTransaction.generate_reference (created_at : Option Int)
    (randoms existing : List String) : Except PyErr String :=
  genRef "PAY" created_at randoms existing

/-- `GiftCardTransaction.generate_reference` (giftcards/models.py, lines
278-296): prefix `"GFT"`. -/
def GiftCardTransaction.generate_reference (created_at : Option Int)
    (randoms existing : List String) : Except PyErr String :=
  genRef "GFT" created_at randoms existing

/-- `AirtimeTopUp.generate_reference` (services/models.py, lines 127-139):
prefix `"AIR"`. -/
def AirtimeTopUp.generate_reference (created_at : Option Int)
    (randoms existing : List String) : Except PyErr String :=
  genRef "AIR" created_at randoms existing

/-- `BillPayment.generate_reference` (services/models.py, lines 222-234):
prefix `"BIL"`. -/
def BillPayment.generate_reference (created_at : Option Int)
    (randoms existing : List String) : Except PyErr String :=
  genRef "BIL" created_at randoms existing

/-- `SchoolFeePayment.generate_reference` (services/models.py, lines
312-324): prefix `"SCH"`. -/
def SchoolFeePayment.generate_reference (created_at : Option Int)
    (randoms existing : List String) : Except PyErr String :=
  genRef "SCH" created_at randoms existing

/-- `Refund.generate_reference` (payments/models.py, lines 380-398):
prefix `"REF"`. -/
def Refund.generate_reference (created_at : Option Int)
    (randoms existing : List String) : Except PyErr String :=
  genRef "REF" created_at randoms existing

/-! ## transactions/models.py — `Transaction` -/

/-- Embeds `Transaction` (transactions/models.py, lines 19-201): the fields
the engine claims concern.  `status` defaults to `"PENDING"`; `fee` and
`tax` default to `0.00`; `created_at` is `auto_now_add` and therefore
`None` until the first INSERT. -/
structure Transaction where
  reference : String
  transaction_type : String
  amount : Int
  fee : Int
  tax : Int
  total_amount : Int
  status : String
  requires_otp : Bool
  otp_verified : Bool
  created_at : Option Int
deriving Repr, DecidableEq

/-- Embeds `Transaction.save` (transactions/models.py, lines 154-161):
fills `reference` via `generate_reference` when falsy (blank), then
unconditionally recomputes `total_amount = amount + fee + tax` before
delegating to the framework's save. -/
def Transaction.save (randoms existing : List String) (t : Transaction) :
    Except PyErr Transaction :=
  match (if t.reference = "" then
           Transaction.generate_reference t.created_at randoms existing
         else .ok t.reference) with
  | .error e => .error e
  | .ok ref =>
    .ok { t with reference := ref,
                 total_amount := t.amount + t.fee + t.tax }

/-- Embeds `Transaction.can_be_cancelled` (transactions/models.py, lines
195-197): `self.status in ["PENDING", "PROCESSING"]`. -/
def Transaction.can_be_cancelled (t : Transaction) : Bool :=
  t.status ∈ (["PENDING", "PROCESSING"] : List String)

/-- Embeds `Transaction.can_be_reversed` (transactions/models.py, lines
199-201): `self.status == "COMPLETED"`. -/
def Transaction.can_be_reversed (t : Transaction) : Bool :=
  t.status = "COMPLETED"

/-! ## transactions/models.py — `TransactionLimit` and the daily check -/

/-- Embeds `TransactionLimit` (transactions/models.py, lines 279-361): one
row per user with the tier's daily, single-transaction and monthly
ceilings.  `user` is the owning user's identity. -/
structure TransactionLimit where
  user : Nat
  tier : String
  daily_transfer_limit : Int
  daily_withdrawal_limit : Int
  daily_crypto_limit : Int
  single_transfer_limit : Int
  single_withdrawal_limit : Int
  single_crypto_limit : Int
  monthly_transfer_limit : Int
  monthly_withdrawal_limit : Int
deriving Repr, DecidableEq

/-- A `TransactionLimit` row carrying the model's field defaults
(tier `BASIC`; daily 100000.00 / 50000.00 / 200000.00, single 50000.00 /
20000.00 / 100000.00, monthly 2000000.00 / 1000000.00). -/
def defaultTransactionLimit (u : Nat) : TransactionLimit :=
  { user := u
    tier := "BASIC"
    daily_transfer_limit := 10000000
    daily_withdrawal_limit := 5000000
    daily_crypto_limit := 20000000
    single_transfer_limit := 5000000
    single_withdrawal_limit := 2000000
    single_crypto_limit := 10000000
    monthly_transfer_limit := 200000000
    monthly_withdrawal_limit := 100000000 }

/-- A persisted transaction row as seen by the daily-limit aggregate query:
the source account's owning user, the transaction type, the status, the
calendar date of `created_at` (encoded as a day number), and the amount. -/
structure TxnRow where
  user : Nat
  transaction_type : String
  status : String
  day : Nat
  amount : Int
deriving Repr, DecidableEq

/-- Embeds the aggregate
`Transaction.objects.filter(source_account__user=self.user,
transaction_type__in=types, status="COMPLETED",
created_at__date=today).aggregate(total=Sum("amount"))["total"] or
Decimal("0.00")`: the sum of `amount` over the matching rows (`0` when
none match, as `or Decimal("0.00")` yields). -/
def dailyTotal (rows : List TxnRow) (u : Nat) (types : List String)
    (today : Nat) : Int :=
  ((rows.filter fun r =>
      r.user = u && r.transaction_type ∈ types && r.status = "COMPLETED"
        && r.day = today).map TxnRow.amount).sum

/-- Embeds `TransactionLimit.check_daily_limit` (transactions/models.py,
lines 363-400): for transfer/payment, withdrawal, and crypto categories it
compares today's completed total plus the requested amount against the
category's daily ceiling; every other transaction type falls through to
`return True`. -/
def TransactionLimit.check_daily_limit (lim : TransactionLimit)
    (rows : List TxnRow) (today : Nat) (transaction_type : String)
    (amount : Int) : Bool :=
  if transaction_type ∈ (["TRANSFER", "PAYMENT"] : List String) then
    decide (dailyTotal rows lim.user ["TRANSFER", "PAYMENT"] today + amount
      ≤ lim.daily_transfer_limit)
  else if transaction_type = "WITHDRAWAL" then
    decide (dailyTotal rows lim.user ["WITHDRAWAL"] today + amount
      ≤ lim.daily_withdrawal_limit)
  else if transaction_type ∈ (["CRYPTO_BUY", "CRYPTO_SELL"] : List String) then
    decide (dailyTotal rows lim.user ["CRYPTO_BUY", "CRYPTO_SELL"] today
      + amount ≤ lim.daily_crypto_limit)
  else
    true

/-! ## Ledger operations and the transaction state machine

The repository's source contains the guard predicates
(`BankAccount.can_withdraw`, `Transaction.can_be_cancelled`,
`Transaction.can_be_reversed`) but not the operations they guard: no code
under src/ moves funds between `available_balance` and `frozen_balance`,
commits or releases a hold, or drives a status transition.  Those
operations are modelled here from the spec (§4.2, §4.4) and are marked as
such; their guards are the source-embedded predicates above. -/

/-- Errors of the engine's error taxonomy (spec §7) used below. -/
inductive EngineErr where
  | insufficientFundsOrNotActive
  | invalidStateTransition
deriving Repr, DecidableEq

/-- Modelled from the spec: `reserve(account_id, amount)` (§4.2) is absent
from src/.  Per the spec it checks `status == ACTIVE`,
`amount <= available_balance` and `amount <= single_transaction_limit` —
exactly the source's `BankAccount.can_withdraw` — and then moves `amount`
from `available_balance` into `frozen_balance` in one atomic step,
returning the hold. -/
def reserve (a : BankAccount) (amount : Int) :
    Except EngineErr (BankAccount × Int) :=
  if a.can_withdraw amount then
    .ok ({ a with available_balance := a.available_balance - amount,
                  frozen_balance := a.frozen_balance + amount }, amount)
  else
    .error .insufficientFundsOrNotActive

/-- Modelled from the spec: `release(hold)` (§4.2) is absent from src/.
Per the spec it reverses the reservation — moving the held amount from
`frozen_balance` back into `available_balance` — without touching
`balance`. -/
def release (a : BankAccount) (hold : Int) : BankAccount :=
  { a with available_balance := a.available_balance + hold,
           frozen_balance := a.frozen_balance - hold }

/-- One audit row (transactions/models.py, `TransactionLog`): the action
with the old and new status captured by the transition. -/
structure TransactionLog where
  action : String
  old_status : String
  new_status : String
deriving Repr, DecidableEq

/-- The state the transaction state machine acts on: the transaction, its
source and destination ledger accounts, whether a hold for `txn.amount` is
outstanding on the source, and the append-only audit log. -/
structure EngineState where
  txn : Transaction
  source : BankAccount
  dest : BankAccount
  held : Bool
  log : List TransactionLog
deriving Repr, DecidableEq

/-- Modelled from the spec: `complete` (§4.4) is absent from src/.  From
`PROCESSING` it commits the ledger hold (held amount leaves the source's
`balance` and `frozen_balance`, is credited to the destination), sets the
status to `COMPLETED` and appends one `COMPLETED` log row.  From any other
status it returns `InvalidStateTransition` with the state untouched. -/
def Engine.complete (s : EngineState) : EngineState × Option EngineErr :=
  if s.txn.status = "PROCESSING" then
    ({ s with
        txn := { s.txn with status := "COMPLETED" }
        source := { s.source with
          balance := s.source.balance - s.txn.amount
          frozen_balance := s.source.frozen_balance - s.txn.amount }
        dest := { s.dest with
          balance := s.dest.balance + s.txn.amount
          available_balance := s.dest.available_balance + s.txn.amount }
        held := false
        log := s.log ++ [⟨"COMPLETED", s.txn.status, "COMPLETED"⟩] }, none)
  else
    (s, some .invalidStateTransition)

/-- Modelled from the spec: `cancel` (§4.4) is absent from src/.  It is
guarded by the source's `Transaction.can_be_cancelled` (status `PENDING`
or `PROCESSING`); it releases the hold if one is outstanding, sets the
status to `CANCELLED` and appends one `CANCELLED` log row.  Otherwise it
returns `InvalidStateTransition` with the state untouched. -/
def Engine.cancel (s : EngineState) : EngineState × Option EngineErr :=
  if s.txn.can_be_cancelled then
    ({ s with
        txn := { s.txn with status := "CANCELLED" }
        source := if s.held then release s.source s.txn.amount else s.source
        held := false
        log := s.log ++ [⟨"CANCELLED", s.txn.status, "CANCELLED"⟩] }, none)
  else
    (s, some .invalidStateTransition)

/-- Modelled from the spec: `reverse` (§4.4) is absent from src/.  It is
guarded by the source's `Transaction.can_be_reversed` (status
`COMPLETED`); it re-credits the source account and debits the destination
(mirror posting), sets the status to `REVERSED` and appends one `REVERSED`
log row.  Otherwise it returns `InvalidStateTransition` with the state
untouched. -/
def Engine.reverse (s : EngineState) : EngineState × Option EngineErr :=
  if s.txn.can_be_reversed then
    ({ s with
        txn := { s.txn with status := "REVERSED" }
        source := { s.source with
          balance := s.source.balance + s.txn.amount
          available_balance := s.source.available_balance + s.txn.amount }
        dest := { s.dest with
          balance := s.dest.balance - s.txn.amount
          available_balance := s.dest.available_balance - s.txn.amount }
        log := s.log ++ [⟨"REVERSED", s.txn.status, "REVERSED"⟩] }, none)
  else
    (s, some .invalidStateTransition)

/-! ## Concrete fixtures used by the witnesses below -/

/-- A funded active account: balance 1000.00 split as 600.00 available and
400.00 frozen. -/
def fundedAccount : BankAccount :=
  { account_number := "2090000000001"
    balance := 100000
    available_balance := 60000
    frozen_balance := 40000
    status := "ACTIVE"
    daily_limit := 50000000
    single_transaction_limit := 10000000 }

/-- Two completed transfers by user 7 on day 20000, totalling 80000.00. -/
def exampleRows : List TxnRow :=
  [ { user := 7, transaction_type := "TRANSFER", status := "COMPLETED",
      day := 20000, amount := 5000000 },
    { user := 7, transaction_type := "TRANSFER", status := "COMPLETED",
      day := 20000, amount := 3000000 } ]

/-- A transfer of 1000.00 with fee 50.00 and tax 20.00, its `total_amount`
field preset to the arbitrary value `j`, its reference already assigned. -/
def exampleTxn (j : Int) : Transaction :=
  { reference := "TXN1700000000000AAAA1111"
    transaction_type := "TRANSFER"
    amount := 100000
    fee := 5000
    tax := 2000
    total_amount := j
    status := "PENDING"
    requires_otp := false
    otp_verified := false
    created_at := some 1700000000000 }

/-- The funded account after a reservation of 10.00: the amount has moved
from available into frozen. -/
def reservedAccount : BankAccount :=
  { account_number := "2090000000001"
    balance := 100000
    available_balance := 59000
    frozen_balance := 41000
    status := "ACTIVE"
    daily_limit := 50000000
    single_transaction_limit := 10000000 }

/-- An engine state holding a PENDING transfer with an outstanding hold. -/
def examplePendingState : EngineState :=
  { txn := exampleTxn 107000
    source := fundedAccount
    dest := defaultBankAccount
    held := true
    log := [] }

/-- The same engine state with the transaction already PROCESSING. -/
def exampleProcessingState : EngineState :=
  { examplePendingState with
      txn := { exampleTxn 107000 with status := "PROCESSING" } }

/-! ## Helper lemmas -/

/-- `BankAccount.save` writes `account_number` at most; the three balance
columns always survive it unchanged. -/
lemma save_preserves_balances {randoms : List Nat} {existing : List String}
    {a a' : BankAccount} (h : BankAccount.save randoms existing a = some a') :
    a'.balance = a.balance ∧ a'.available_balance = a.available_balance
      ∧ a'.frozen_balance = a.frozen_balance := by
  unfold BankAccount.save at h
  split at h
  · cases hg : generate_account_number existing randoms with
    | none => rw [hg] at h; exact absurd h (by simp)
    | some n =>
      rw [hg] at h
      injection h with h
      subst h
      exact ⟨rfl, rfl, rfl⟩
  · injection h with h
    subst h
    exact ⟨rfl, rfl, rfl⟩

/-- The retry loop returns the candidate built from the first draw whose
reference is fresh, and that reference is indeed absent from the store. -/
lemma genRefLoop_spec (pre ts : String) (existing : List String) :
    ∀ randoms : List String,
      (∀ r ∈ randoms, validDraw r = true) →
      (∃ r ∈ randoms, (pre ++ ts ++ r) ∉ existing) →
      ∃ r, r ∈ randoms ∧ validDraw r = true
        ∧ genRefLoop pre ts existing randoms = some (pre ++ ts ++ r)
        ∧ (pre ++ ts ++ r) ∉ existing := by
  intro randoms
  induction randoms with
  | nil =>
    rintro _ ⟨r, hr, _⟩
    exact absurd hr (List.not_mem_nil r)
  | cons r rest ih =>
    intro hv hex
    by_cases hc : (pre ++ ts ++ r) ∈ existing
    · have hex' : ∃ r' ∈ rest, (pre ++ ts ++ r') ∉ existing := by
        obtain ⟨r', hr', hfresh⟩ := hex
        rcases List.mem_cons.mp hr' with rfl | hmem
        · exact absurd hc hfresh
        · exact ⟨r', hmem, hfresh⟩
      have hv' : ∀ r' ∈ rest, validDraw r' = true :=
        fun r' hm => hv r' (List.mem_cons_of_mem _ hm)
      obtain ⟨r', h1, h2, h3, h4⟩ := ih hv' hex'
      refine ⟨r', List.mem_cons_of_mem _ h1, h2, ?_, h4⟩
      rw [genRefLoop, if_pos hc]
      exact h3
    · refine ⟨r, List.mem_cons_self r rest, hv r (List.mem_cons_self r rest),
        ?_, hc⟩
      rw [genRefLoop, if_neg hc]

/-- The transfer/payment branch of `check_daily_limit`, made explicit. -/
lemma check_daily_limit_transfer_eq (lim : TransactionLimit)
    (rows : List TxnRow) (today : Nat) (ty : String) (amt : Int)
    (h : ty ∈ (["TRANSFER", "PAYMENT"] : List String)) :
    lim.check_daily_limit rows today ty amt
      = decide (dailyTotal rows lim.user ["TRANSFER", "PAYMENT"] today + amt
          ≤ lim.daily_transfer_limit) := by
  unfold TransactionLimit.check_daily_limit
  rw [if_pos h]

/-- The withdrawal branch of `check_daily_limit`, made explicit. -/
lemma check_daily_limit_withdrawal_eq (lim : TransactionLimit)
    (rows : List TxnRow) (today : Nat) (amt : Int) :
    lim.check_daily_limit rows today "WITHDRAWAL" amt
      = decide (dailyTotal rows lim.user ["WITHDRAWAL"] today + amt
          ≤ lim.daily_withdrawal_limit) := by
  rfl

/-- The crypto branch of `check_daily_limit`, made explicit. -/
lemma check_daily_limit_crypto_eq (lim : TransactionLimit)
    (rows : List TxnRow) (today : Nat) (ty : String) (amt : Int)
    (h : ty ∈ (["CRYPTO_BUY", "CRYPTO_SELL"] : List String)) :
    lim.check_daily_limit rows today ty amt
      = decide (dailyTotal rows lim.user ["CRYPTO_BUY", "CRYPTO_SELL"] today
          + amt ≤ lim.daily_crypto_limit) := by
  simp only [List.mem_cons, List.not_mem_nil, or_false] at h
  rcases h with rfl | rfl <;> rfl

/-! ## Claim theorems -/

/-- C1 (counterexample): the claim that every reachable account state
satisfies `balance == available_balance + frozen_balance` and that nothing
but a state-machine apply step mutates the three balance fields is false on
this code: the admin change form (`BankAccountAdmin`) writes the three
balance fields directly, producing a state with `balance = 100.00`,
`available_balance = 0`, `frozen_balance = 0` that violates the invariant,
and `BankAccount.save` persists that state unchanged. -/
theorem C1_balance_invariant_counterexample :
    ¬ balanceInvariant
        (BankAccountAdmin.updateBalances defaultBankAccount 10000 0 0)
    ∧ BankAccount.save [] []
        { BankAccountAdmin.updateBalances defaultBankAccount 10000 0 0 with
            account_number := "2095555555555" }
      = some
        { BankAccountAdmin.updateBalances defaultBankAccount 10000 0 0 with
            account_number := "2095555555555" } := by
  exact ⟨by decide, by decide⟩

/-- C1 (amended): a freshly constructed account (all balances defaulted to
`0.00`) satisfies `balance == available_balance + frozen_balance` and
`available_balance >= 0`, and `BankAccount.save` — the only account
operation in the source — never alters the three balance fields and hence
preserves the invariant; but no state-machine apply step exists, and the
admin form mutates the balance fields directly, so the invariant does not
hold at every reachable state. -/
theorem C1_balance_invariant_amended :
    balanceInvariant defaultBankAccount
    ∧ (∀ (randoms : List Nat) (existing : List String) (a a' : BankAccount),
        BankAccount.save randoms existing a = some a' →
          a'.balance = a.balance
          ∧ a'.available_balance = a.available_balance
          ∧ a'.frozen_balance = a.frozen_balance)
    ∧ (∀ (randoms : List Nat) (existing : List String) (a a' : BankAccount),
        BankAccount.save randoms existing a = some a' →
          balanceInvariant a → balanceInvariant a') := by
  refine ⟨by decide, fun _ _ _ _ h => save_preserves_balances h,
    fun _ _ _ _ h hinv => ?_⟩
  obtain ⟨h1, h2, h3⟩ := save_preserves_balances h
  unfold balanceInvariant at hinv ⊢
  rw [h1, h2, h3]
  exact hinv

/-- C1 (witness): the amended theorem applied to a concrete successful
save of the default account. -/
theorem C1_balance_invariant_amended_witness :
    ({ defaultBankAccount with account_number := "2091234567890" }
        : BankAccount).balance = defaultBankAccount.balance
    ∧ ({ defaultBankAccount with account_number := "2091234567890" }
        : BankAccount).available_balance
        = defaultBankAccount.available_balance
    ∧ ({ defaultBankAccount with account_number := "2091234567890" }
        : BankAccount).frozen_balance = defaultBankAccount.frozen_balance :=
  C1_balance_invariant_amended.2.1 [1234567890] [] defaultBankAccount
    { defaultBankAccount with account_number := "2091234567890" } (by decide)

/-- C2: for each limited category the daily check accepts exactly when the
day's completed total plus the requested amount stays within the tier's
daily ceiling for that category; with the default daily transfer limit
100000.00 and completed transfers totalling 80000.00 today, a transfer of
25000.00 is rejected and one of 15000.00 is accepted. -/
theorem C2_daily_limit_check :
    (∀ (lim : TransactionLimit) (rows : List TxnRow) (today : Nat)
        (ty : String) (amt : Int),
        ty ∈ (["TRANSFER", "PAYMENT"] : List String) →
        (lim.check_daily_limit rows today ty amt = true ↔
          dailyTotal rows lim.user ["TRANSFER", "PAYMENT"] today + amt
            ≤ lim.daily_transfer_limit))
    ∧ (∀ (lim : TransactionLimit) (rows : List TxnRow) (today : Nat)
        (amt : Int),
        (lim.check_daily_limit rows today "WITHDRAWAL" amt = true ↔
          dailyTotal rows lim.user ["WITHDRAWAL"] today + amt
            ≤ lim.daily_withdrawal_limit))
    ∧ (∀ (lim : TransactionLimit) (rows : List TxnRow) (today : Nat)
        (ty : String) (amt : Int),
        ty ∈ (["CRYPTO_BUY", "CRYPTO_SELL"] : List String) →
        (lim.check_daily_limit rows today ty amt = true ↔
          dailyTotal rows lim.user ["CRYPTO_BUY", "CRYPTO_SELL"] today + amt
            ≤ lim.daily_crypto_limit))
    ∧ (defaultTransactionLimit 7).check_daily_limit exampleRows 20000
        "TRANSFER" 2500000 = false
    ∧ (defaultTransactionLimit 7).check_daily_limit exampleRows 20000
        "TRANSFER" 1500000 = true := by
  refine ⟨?_, ?_, ?_, by decide, by decide⟩
  · intro lim rows today ty amt h
    rw [check_daily_limit_transfer_eq lim rows today ty amt h]
    exact decide_eq_true_iff
  · intro lim rows today amt
    rw [check_daily_limit_withdrawal_eq]
    exact decide_eq_true_iff
  · intro lim rows today ty amt h
    rw [check_daily_limit_crypto_eq lim rows today ty amt h]
    exact decide_eq_true_iff

/-- C2 (witness): the transfer-category equivalence applied at a concrete
input. -/
theorem C2_daily_limit_check_witness :
    (defaultTransactionLimit 7).check_daily_limit exampleRows 20000
        "TRANSFER" 1500000 = true ↔
      dailyTotal exampleRows (defaultTransactionLimit 7).user
          ["TRANSFER", "PAYMENT"] 20000 + 1500000
        ≤ (defaultTransactionLimit 7).daily_transfer_limit :=
  C2_daily_limit_check.1 (defaultTransactionLimit 7) exampleRows 20000
    "TRANSFER" 1500000 (by decide)

/-- C3 (counterexample): the claim that the limit evaluator rejects against
the daily, monthly, and single-transaction ceilings is false on this code:
with the default BASIC tier (single transfer ceiling 50000.00) and no prior
transactions, a transfer of 60000.00 exceeds the single-transaction ceiling
yet `check_daily_limit` accepts it. -/
theorem C3_single_ceiling_counterexample :
    (defaultTransactionLimit 7).check_daily_limit [] 0 "TRANSFER" 6000000
      = true
    ∧ (defaultTransactionLimit 7).single_transfer_limit < 6000000 := by
  exact ⟨by decide, by decide⟩

/-- C3 (amended): `check_daily_limit` enforces only the daily ceiling of
the requested category — it fails exactly when the day's completed total
plus the amount exceeds that daily ceiling — and its result is independent
of the tier's single-transaction and monthly ceiling fields, which no code
consults. -/
theorem C3_daily_only_amended :
    (∀ (lim : TransactionLimit) (rows : List TxnRow) (today : Nat)
        (ty : String) (amt : Int),
        ty ∈ (["TRANSFER", "PAYMENT"] : List String) →
        (lim.check_daily_limit rows today ty amt = false ↔
          lim.daily_transfer_limit <
            dailyTotal rows lim.user ["TRANSFER", "PAYMENT"] today + amt))
    ∧ (∀ (lim : TransactionLimit) (rows : List TxnRow) (today : Nat)
        (amt : Int),
        (lim.check_daily_limit rows today "WITHDRAWAL" amt = false ↔
          lim.daily_withdrawal_limit <
            dailyTotal rows lim.user ["WITHDRAWAL"] today + amt))
    ∧ (∀ (lim : TransactionLimit) (rows : List TxnRow) (today : Nat)
        (ty : String) (amt : Int),
        ty ∈ (["CRYPTO_BUY", "CRYPTO_SELL"] : List String) →
        (lim.check_daily_limit rows today ty amt = false ↔
          lim.daily_crypto_limit <
            dailyTotal rows lim.user ["CRYPTO_BUY", "CRYPTO_SELL"] today
              + amt))
    ∧ (∀ (lim : TransactionLimit) (rows : List TxnRow) (today : Nat)
        (ty : String) (amt s1 s2 s3 m1 m2 : Int),
        TransactionLimit.check_daily_limit
          { lim with single_transfer_limit := s1,
                     single_withdrawal_limit := s2,
                     single_crypto_limit := s3,
                     monthly_transfer_limit := m1,
                     monthly_withdrawal_limit := m2 } rows today ty amt
          = lim.check_daily_limit rows today ty amt) := by
  refine ⟨?_, ?_, ?_, ?_⟩
  · intro lim rows today ty amt h
    rw [check_daily_limit_transfer_eq lim rows today ty amt h]
    simp [decide_eq_false_iff_not, not_le]
  · intro lim rows today amt
    rw [check_daily_limit_withdrawal_eq]
    simp [decide_eq_false_iff_not, not_le]
  · intro lim rows today ty amt h
    rw [check_daily_limit_crypto_eq lim rows today ty amt h]
    simp [decide_eq_false_iff_not, not_le]
  · intro lim rows today ty amt s1 s2 s3 m1 m2
    cases lim
    rfl

/-- C3 (witness): the transfer-category equivalence applied at a concrete
input. -/
theorem C3_daily_only_amended_witness :
    (defaultTransactionLimit 7).check_daily_limit [] 0 "TRANSFER" 6000000
      = false ↔
    (defaultTransactionLimit 7).daily_transfer_limit <
      dailyTotal [] (defaultTransactionLimit 7).user
        ["TRANSFER", "PAYMENT"] 0 + 6000000 :=
  C3_daily_only_amended.1 (defaultTransactionLimit 7) [] 0 "TRANSFER"
    6000000 (by decide)

/-- C4: every successful `Transaction.save` persists
`total_amount = amount + fee + tax`, recomputed at save time and never
taken from the caller-supplied field; in particular a transaction with
amount 1000.00, fee 50.00, tax 20.00 persists `total_amount = 1070.00`
whatever value the field held before. -/
theorem C4_total_amount_recomputed :
    (∀ (randoms existing : List String) (t t' : Transaction),
        Transaction.save randoms existing t = .ok t' →
          t'.total_amount = t.amount + t.fee + t.tax)
    ∧ (∀ j : Int,
        Transaction.save ["AAAA1111"] [] (exampleTxn j)
          = .ok { exampleTxn j with total_amount := 107000 }) := by
  constructor
  · intro randoms existing t t' h
    unfold Transaction.save at h
    cases hr : (if t.reference = "" then
        Transaction.generate_reference t.created_at randoms existing
      else .ok t.reference) with
    | error e => rw [hr] at h; exact absurd h (by simp)
    | ok ref =>
      rw [hr] at h
      injection h with h
      subst h
      rfl
  · intro j
    rfl

/-- C4 (witness): the recomputation law applied to a concrete save whose
`total_amount` field was preset to the junk value 999999. -/
theorem C4_total_amount_recomputed_witness :
    ({ exampleTxn 999999 with total_amount := 107000 }
        : Transaction).total_amount
      = (exampleTxn 999999).amount + (exampleTxn 999999).fee
        + (exampleTxn 999999).tax :=
  C4_total_amount_recomputed.1 ["AAAA1111"] [] (exampleTxn 999999)
    { exampleTxn 999999 with total_amount := 107000 } rfl

/-- C5: each lifecycle operation is permitted only from its legal
predecessor states — `complete` only from `PROCESSING`, `cancel` only from
`PENDING` or `PROCESSING` (the source's `can_be_cancelled`), `reverse`
only from `COMPLETED` (the source's `can_be_reversed`) — and an operation
attempted from any other state returns `InvalidStateTransition` with the
whole engine state (status, ledger accounts, audit log) unchanged. -/
theorem C5_lifecycle_guards :
    (∀ s : EngineState, s.txn.status ≠ "PROCESSING" →
        Engine.complete s = (s, some .invalidStateTransition))
    ∧ (∀ s : EngineState, s.txn.status = "PROCESSING" →
        (Engine.complete s).2 = none)
    ∧ (∀ t : Transaction, t.can_be_cancelled = true ↔
        (t.status = "PENDING" ∨ t.status = "PROCESSING"))
    ∧ (∀ s : EngineState, s.txn.can_be_cancelled = false →
        Engine.cancel s = (s, some .invalidStateTransition))
    ∧ (∀ s : EngineState, s.txn.can_be_cancelled = true →
        (Engine.cancel s).2 = none)
    ∧ (∀ t : Transaction, t.can_be_reversed = true ↔ t.status = "COMPLETED")
    ∧ (∀ s : EngineState, s.txn.can_be_reversed = false →
        Engine.reverse s = (s, some .invalidStateTransition))
    ∧ (∀ s : EngineState, s.txn.can_be_reversed = true →
        (Engine.reverse s).2 = none) := by
  refine ⟨?_, ?_, ?_, ?_, ?_, ?_, ?_, ?_⟩
  · intro s h
    unfold Engine.complete
    rw [if_neg h]
  · intro s h
    unfold Engine.complete
    rw [if_pos h]
  · intro t
    unfold Transaction.can_be_cancelled
    simp [List.mem_cons]
  · intro s h
    unfold Engine.cancel
    rw [if_neg (by simp [h])]
  · intro s h
    unfold Engine.cancel
    rw [if_pos (by simp [h])]
  · intro t
    unfold Transaction.can_be_reversed
    simp
  · intro s h
    unfold Engine.reverse
    rw [if_neg (by simp [h])]
  · intro s h
    unfold Engine.reverse
    rw [if_pos (by simp [h])]

/-- C5 (witness): `complete` and `reverse` on a PENDING transaction fail
with `InvalidStateTransition` leaving the state untouched, `cancel` on the
same PENDING transaction succeeds, and `complete` on a PROCESSING
transaction succeeds. -/
theorem C5_lifecycle_guards_witness :
    Engine.complete examplePendingState
      = (examplePendingState, some EngineErr.invalidStateTransition)
    ∧ (Engine.cancel examplePendingState).2 = none
    ∧ Engine.reverse examplePendingState
      = (examplePendingState, some EngineErr.invalidStateTransition)
    ∧ (Engine.complete exampleProcessingState).2 = none :=
  ⟨C5_lifecycle_guards.1 examplePendingState (by decide),
   C5_lifecycle_guards.2.2.2.2.1 examplePendingState (by decide),
   C5_lifecycle_guards.2.2.2.2.2.2.1 examplePendingState (by decide),
   C5_lifecycle_guards.2.1 exampleProcessingState (by decide)⟩

/-- C6: the reserve-eligibility check succeeds exactly when the account is
`ACTIVE`, the amount is within `available_balance`, and the amount is
within `single_transaction_limit` (the source's `can_withdraw`); on
success the amount moves from `available_balance` into `frozen_balance` in
the one atomic step, leaving `balance` untouched. -/
theorem C6_reserve_eligibility :
    (∀ (a : BankAccount) (amount : Int),
        (∃ r, reserve a amount = .ok r) ↔
          (a.status = "ACTIVE" ∧ amount ≤ a.available_balance
            ∧ amount ≤ a.single_transaction_limit))
    ∧ (∀ (a : BankAccount) (amount : Int) (a' : BankAccount) (hold : Int),
        reserve a amount = .ok (a', hold) →
          a'.available_balance = a.available_balance - amount
          ∧ a'.frozen_balance = a.frozen_balance + amount
          ∧ a'.balance = a.balance ∧ hold = amount) := by
  constructor
  · intro a amount
    constructor
    · rintro ⟨r, hr⟩
      unfold reserve at hr
      by_cases hc : a.can_withdraw amount
      · simpa [BankAccount.can_withdraw, BankAccount.is_active,
          Bool.and_eq_true, decide_eq_true_eq, and_assoc] using hc
      · rw [if_neg hc] at hr
        exact absurd hr (by simp)
    · rintro ⟨h1, h2, h3⟩
      have hc : a.can_withdraw amount = true := by
        simp [BankAccount.can_withdraw, BankAccount.is_active, h1, h2, h3]
      exact ⟨_, by unfold reserve; rw [if_pos hc]⟩
  · intro a amount a' hold h
    unfold reserve at h
    by_cases hc : a.can_withdraw amount
    · rw [if_pos hc] at h
      injection h with h
      injection h with h hh
      subst h
      subst hh
      refine ⟨rfl, rfl, rfl, rfl⟩
    · rw [if_neg hc] at h
      exact absurd h (by simp)

/-- C6 (witness): reserving 10.00 on the funded account succeeds, and the
resulting account shows the amount moved from available into frozen with
`balance` unchanged. -/
theorem C6_reserve_eligibility_witness :
    (∃ r, reserve fundedAccount 1000 = .ok r)
    ∧ (reservedAccount.available_balance
          = fundedAccount.available_balance - 1000
        ∧ reservedAccount.frozen_balance = fundedAccount.frozen_balance + 1000
        ∧ reservedAccount.balance = fundedAccount.balance
        ∧ (1000 : Int) = 1000) :=
  ⟨(C6_reserve_eligibility.1 fundedAccount 1000).mpr
      ⟨rfl, by decide, by decide⟩,
   C6_reserve_eligibility.2 fundedAccount 1000 reservedAccount 1000
      (by rfl)⟩

/-- C8: reserving an amount and then releasing the resulting hold restores
`available_balance` to exactly its pre-reservation value and returns
`frozen_balance` to its original value too, while neither the reservation
nor the release ever touches `balance`. -/
theorem C8_reserve_release_roundtrip :
    ∀ (a : BankAccount) (amount : Int) (a' : BankAccount) (hold : Int),
      reserve a amount = .ok (a', hold) →
        (release a' hold).available_balance = a.available_balance
        ∧ (release a' hold).frozen_balance = a.frozen_balance
        ∧ (release a' hold).balance = a'.balance
        ∧ a'.balance = a.balance := by
  intro a amount a' hold h
  unfold reserve at h
  by_cases hc : a.can_withdraw amount
  · rw [if_pos hc] at h
    injection h with h
    injection h with h hh
    subst h
    subst hh
    unfold release
    refine ⟨?_, ?_, rfl, rfl⟩ <;> simp
  · rw [if_neg hc] at h
    exact absurd h (by simp)

/-- C8 (witness): the round trip on the funded account at amount 10.00. -/
theorem C8_reserve_release_roundtrip_witness :
    (release reservedAccount 1000).available_balance
      = fundedAccount.available_balance
    ∧ (release reservedAccount 1000).frozen_balance
      = fundedAccount.frozen_balance
    ∧ (release reservedAccount 1000).balance = reservedAccount.balance
    ∧ reservedAccount.balance = fundedAccount.balance :=
  C8_reserve_release_roundtrip fundedAccount 1000 reservedAccount 1000
    (by rfl)

/-- C7: when `created_at` is set, every domain's reference generator
returns the domain prefix followed by the millisecond timestamp followed
by an 8-character uppercase-alphanumeric draw, taking the first draw whose
reference is absent from the store, so the result never collides with an
existing reference; on a collision the loop simply recurses on the
remaining (freshly drawn) suffixes; and the eight domain generators are
the shared algorithm at prefixes `TXN`, `CRX`, `PAY`, `GFT`, `AIR`, `BIL`,
`SCH`, `REF` respectively. -/
theorem C7_reference_generation :
    (∀ (pre : String) (ms : Int) (randoms existing : List String),
        (∀ r ∈ randoms, validDraw r = true) →
        (∃ r ∈ randoms, (pre ++ toString ms ++ r) ∉ existing) →
        ∃ r, r ∈ randoms ∧ validDraw r = true
          ∧ genRef pre (some ms) randoms existing
              = .ok (pre ++ toString ms ++ r)
          ∧ (pre ++ toString ms ++ r) ∉ existing)
    ∧ (∀ (pre : String) (ms : Int) (r : String)
        (rest existing : List String),
        (pre ++ toString ms ++ r) ∈ existing →
        genRef pre (some ms) (r :: rest) existing
          = genRef pre (some ms) rest existing)
    ∧ (∀ (ca : Option Int) (randoms existing : List String),
        Transaction.generate_reference ca randoms existing
            = genRef "TXN" ca randoms existing
        ∧ CryptoTransaction.generate_reference ca randoms existing
            = genRef "CRX" ca randoms existing
        ∧ PaymentTransaction.generate_reference ca randoms existing
            = genRef "PAY" ca randoms existing
        ∧ GiftCardTransaction.generate_reference ca randoms existing
            = genRef "GFT" ca randoms existing
        ∧ AirtimeTopUp.generate_reference ca randoms existing
            = genRef "AIR" ca randoms existing
        ∧ BillPayment.generate_reference ca randoms existing
            = genRef "BIL" ca randoms existing
        ∧ SchoolFeePayment.generate_reference ca randoms existing
            = genRef "SCH" ca randoms existing
        ∧ Refund.generate_reference ca randoms existing
            = genRef "REF" ca randoms existing) := by
  refine ⟨?_, ?_, ?_⟩
  · intro pre ms randoms existing hv hex
    obtain ⟨r, h1, h2, h3, h4⟩ :=
      genRefLoop_spec pre (toString ms) existing randoms hv hex
    exact ⟨r, h1, h2, by simp [genRef, h3], h4⟩
  · intro pre ms r rest existing hc
    simp [genRef, genRefLoop, hc]
  · intro ca randoms existing
    exact ⟨rfl, rfl, rfl, rfl, rfl, rfl, rfl, rfl⟩

/-- C7 (witness): the format-and-freshness law applied at prefix `TXN`,
timestamp `0`, a single valid draw, and an empty store. -/
theorem C7_reference_generation_witness :
    ∃ r, r ∈ (["AAAA1111"] : List String) ∧ validDraw r = true
      ∧ genRef "TXN" (some 0) ["AAAA1111"] []
          = .ok ("TXN" ++ toString (0 : Int) ++ r)
      ∧ ("TXN" ++ toString (0 : Int) ++ r) ∉ ([] : List String) :=
  C7_reference_generation.1 "TXN" 0 ["AAAA1111"] [] (by decide)
    ⟨"AAAA1111", by decide, by decide⟩

/-- C9: for every transaction type outside the three limited category sets
(`TRANSFER`/`PAYMENT`, `WITHDRAWAL`, `CRYPTO_BUY`/`CRYPTO_SELL`),
`check_daily_limit` falls through to `return True`, accepting any amount:
no daily ceiling applies to those types. -/
theorem C9_unlimited_types :
    ∀ (lim : TransactionLimit) (rows : List TxnRow) (today : Nat)
      (ty : String) (amt : Int),
      ty ∉ (["TRANSFER", "PAYMENT", "WITHDRAWAL", "CRYPTO_BUY",
        "CRYPTO_SELL"] : List String) →
      lim.check_daily_limit rows today ty amt = true := by
  intro lim rows today ty amt h
  simp only [List.mem_cons, List.not_mem_nil, or_false, not_or] at h
  obtain ⟨h1, h2, h3, h4, h5⟩ := h
  simp [TransactionLimit.check_daily_limit, List.mem_cons, h1, h2, h3, h4, h5]

/-- C9 (witness): a DEPOSIT of 10,000,000,000.00 passes the daily check. -/
theorem C9_unlimited_types_witness :
    (defaultTransactionLimit 7).check_daily_limit [] 0 "DEPOSIT"
      1000000000000 = true :=
  C9_unlimited_types (defaultTransactionLimit 7) [] 0 "DEPOSIT"
    1000000000000 (by decide)

/-- C10: contrary to the claim that `generate_reference` is total, the
`created_at`-absent fallback `str(int(uuid.uuid4().int)[:10])` subscripts
an `int` and raises `TypeError`, so generating a reference for a
transaction whose `created_at` is not yet set (every transaction before
its first persistence) raises instead of returning a string — for the
`Transaction` and `CryptoTransaction` generators cited, and for the shared
algorithm at any prefix and any draw stream. -/
theorem C10_generate_reference_type_error :
    Transaction.generate_reference none ["AAAA1111"] []
      = .error PyErr.typeError
    ∧ CryptoTransaction.generate_reference none ["AAAA1111"] []
      = .error PyErr.typeError
    ∧ (∀ (pre : String) (randoms existing : List String),
        genRef pre none randoms existing = .error PyErr.typeError) :=
  ⟨rfl, rfl, fun _ _ _ => rfl⟩

end SecureBank
